import Mathlib

/-
Verification development for the interview-coaching scoring engine.

The Python services are shallowly embedded over exact rationals:
  * backend/services/analysis_service.py  (communication scorer)
  * backend/services/llm_service.py       (technical scorer)
  * backend/services/report_service.py    (report synthesizer)

Modelling conventions, stated once here:
  * Floating point arithmetic is modelled by exact rational arithmetic; the
    two-decimal rounding round(x, 2) is modelled by rounding to the nearest
    multiple of 1/100.
  * External capabilities (the nltk sentence tokenizer, the textstat
    readability index and the sentence-transformer cosine similarities) are
    modelled as explicit oracle parameters; a textstat failure is an oracle
    returning none, and an embedding cosine similarity is an oracle value
    that real vector geometry bounds by the Cauchy-Schwarz inequality.
  * A Python try/except fallback is modelled by an explicit boolean fault
    flag selecting the except branch.
  * Whitespace is the ASCII whitespace set of Char.isWhitespace, and ASCII
    apostrophes are omitted from literal strings; neither choice is load
    bearing for any statement below.
-/

/-- Clamp a rational into the unit interval, mirroring max(0.0, min(1.0, x)). -/
def clamp01 (x : ℚ) : ℚ := max 0 (min 1 x)

/-- Round to two decimal places, mirroring round(x, 2). -/
def round2 (x : ℚ) : ℚ := (round (x * 100) : ℚ) / 100

/-- Word characters for regex word-boundary semantics (ASCII fragment of a regex word character). -/
def isWordChar (c : Char) : Bool := c.isAlphanum || c == '_'

/-- Word-character test extended to an optional character; the edge of the text counts as a non-word position. -/
def wordC : Option Char → Bool
  | none => false
  | some c => isWordChar c

/-- Whether the word-bounded literal pattern matches at the head of cs, with prev the character immediately before this position. -/
def wbMatchAt (pat : List Char) (prev : Option Char) (cs : List Char) : Bool :=
  pat.isPrefixOf cs
    && (wordC prev != wordC pat.head?)
    && (wordC pat.getLast? != wordC (cs.drop pat.length).head?)

/-- Scan of re.findall over a word-bounded literal pattern: at each position try to match; on a match, count it and resume after the matched text. Fuel is the length of the scanned text, and each step consumes at least one character, so the scan never runs out early. -/
def scanWB (pat : List Char) : Nat → Option Char → List Char → Nat
  | 0, _, _ => 0
  | _ + 1, _, [] => 0
  | fuel + 1, prev, c :: rest =>
    if wbMatchAt pat prev (c :: rest) then
      1 + scanWB pat fuel pat.getLast? ((c :: rest).drop pat.length)
    else
      scanWB pat fuel (some c) rest

/-- Lowercase character data of a string, mirroring text.lower(). -/
def lowerData (s : String) : List Char := s.data.map Char.toLower

/-- Whether the text is empty or whitespace-only, mirroring the guard (not text or len(text.strip()) == 0). -/
def pyBlank (s : String) : Bool := s.data.all Char.isWhitespace

/-- Strip leading and trailing whitespace from character data, mirroring str.strip(). -/
def pyStrip (cs : List Char) : List Char :=
  ((cs.dropWhile Char.isWhitespace).reverse.dropWhile Char.isWhitespace).reverse

/-- Split character data on whitespace runs dropping empty pieces, mirroring str.split() with no arguments; acc holds the current word reversed. -/
def splitWsAux (acc : List Char) : List Char → List (List Char)
  | [] => if acc = [] then [] else [acc.reverse]
  | c :: rest =>
    if c.isWhitespace then
      if acc = [] then splitWsAux [] rest else acc.reverse :: splitWsAux [] rest
    else
      splitWsAux (c :: acc) rest

/-- Words of a string, mirroring s.split(). -/
def pywords (s : String) : List (List Char) := splitWsAux [] s.data

/-- Substring containment on character data, mirroring the Python expression needle in hay. -/
def hasSub : List Char → List Char → Bool
  | [], needle => needle.isEmpty
  | c :: rest, needle => needle.isPrefixOf (c :: rest) || hasSub rest needle

/-- Filler word list of AnalysisService.__init__. -/
def filler_words : List String :=
  ["um", "uh", "er", "ah", "like", "you know", "so", "well",
   "actually", "basically", "literally", "right", "okay", "ok",
   "hmm", "huh", "yeah", "yep", "nope"]

/-- AnalysisService._detect_filler_words: lowercase the text, then for each filler word collect the re.findall matches of the word-bounded pattern, returning the occurrence list and its length. -/
def _detect_filler_words (text : String) : List String × Nat :=
  let tl := lowerData text
  let found := (filler_words.map (fun f => List.replicate (scanWB f.data tl.length none tl) f)).flatten
  (found, found.length)

/-- Oracle for the external text analyses used by the communication scorer: the nltk sentence tokenizer and the textstat Flesch reading ease (none models the library raising). -/
structure TextOracle where
  sentTokenize : String → List String
  flesch : String → Option ℚ

/-- AnalysisService._calculate_clarity_score. -/
def _calculate_clarity_score (o : TextOracle) (text : String) : ℚ :=
  if pyBlank text then 0
  else
    let sentences := o.sentTokenize text
    if sentences = [] then 0.5
    else
      let avgSentenceLength : ℚ :=
        ((sentences.map (fun s => ((pywords s).length : ℚ))).sum) / (sentences.length : ℚ)
      let lengthScore : ℚ :=
        if 15 ≤ avgSentenceLength ∧ avgSentenceLength ≤ 20 then 1
        else if 10 ≤ avgSentenceLength ∧ avgSentenceLength ≤ 25 then 0.8
        else if 5 ≤ avgSentenceLength ∧ avgSentenceLength ≤ 30 then 0.6
        else 0.4
      let words := splitWsAux [] (lowerData text)
      let uniqueRatio : ℚ := if words = [] then 0 else (words.dedup.length : ℚ) / (words.length : ℚ)
      let diversityScore : ℚ := min 1 (uniqueRatio * 1.2)
      let readabilityScore : ℚ :=
        match o.flesch text with
        | some fleschScore => max 0 (min 1 ((fleschScore - 30) / 70))
        | none => 0.7
      clamp01 (lengthScore * 0.3 + diversityScore * 0.3 + readabilityScore * 0.4)

/-- Whether a sentence, stripped, ends with one of the proper ending marks, mirroring s.strip().endswith tested on the period, exclamation and question marks. -/
def endsProper (s : String) : Bool :=
  match (pyStrip s.data).getLast? with
  | some c => c == '.' || c == '!' || c == '?'
  | none => false

/-- Whether a sentence is nonempty and starts with an uppercase letter, mirroring the guard (s and s[0].isupper()). -/
def startsUpper (s : String) : Bool :=
  match s.data with
  | [] => false
  | c :: _ => c.isUpper

/-- AnalysisService._calculate_grammar_score. -/
def _calculate_grammar_score (o : TextOracle) (text : String) : ℚ :=
  if pyBlank text then 0
  else
    let sentences := o.sentTokenize text
    if sentences = [] then 0.5
    else
      let endingRatio : ℚ := ((sentences.countP endsProper : ℚ)) / (sentences.length : ℚ)
      let capRatio : ℚ := ((sentences.countP startsUpper : ℚ)) / (sentences.length : ℚ)
      clamp01 (0.7 + endingRatio * 0.2 + capRatio * 0.1)

/-- Positive indicator lexicon of _calculate_tone_score. -/
def positive_words : List String :=
  ["confident", "excited", "passionate", "motivated", "successful",
   "achieved", "improved", "learned", "expertise", "experience"]

/-- Negative indicator lexicon of _calculate_tone_score. -/
def negative_words : List String :=
  ["maybe", "perhaps", "i think", "i guess", "not sure",
   "dont know", "uncertain", "doubt"]

/-- Professional language lexicon of _calculate_tone_score. -/
def professional_words : List String :=
  ["implemented", "developed", "designed", "optimized", "analyzed",
   "collaborated", "managed", "delivered"]

/-- AnalysisService._calculate_tone_score. -/
def _calculate_tone_score (text : String) : ℚ :=
  if pyBlank text then 0.5
  else
    let tl := lowerData text
    let positiveCount : ℚ := (positive_words.countP (fun w => hasSub tl w.data) : ℚ)
    let negativeCount : ℚ := (negative_words.countP (fun w => hasSub tl w.data) : ℚ)
    let professionalCount : ℚ := (professional_words.countP (fun w => hasSub tl w.data) : ℚ)
    clamp01 (0.7 + min 0.2 (positiveCount * 0.05)
               - min 0.2 (negativeCount * 0.05)
               + min 0.1 (professionalCount * 0.02))

/-- Filler suggestion string of _generate_communication_suggestions, embedding the exact count. -/
def fillerTip (fc : Nat) : String :=
  "Reduce filler words (found " ++ toString fc ++ "). Practice pausing instead of using um or uh."

/-- Clarity suggestion string of _generate_communication_suggestions. -/
def clarityTip : String :=
  "Improve clarity by using shorter, more direct sentences. Avoid run-on sentences."

/-- Grammar suggestion string of _generate_communication_suggestions. -/
def grammarTip : String :=
  "Work on grammar and sentence structure. Practice speaking in complete sentences."

/-- Tone suggestion string of _generate_communication_suggestions. -/
def toneTip : String :=
  "Use more confident language. Avoid phrases like I think or maybe. Be more assertive."

/-- Positive reinforcement string of _generate_communication_suggestions. -/
def positiveTip : String :=
  "Great communication! Continue practicing to maintain consistency."

/-- AnalysisService._generate_communication_suggestions. -/
def _generate_communication_suggestions (fc : Nat) (clarity grammar tone : ℚ) : List String :=
  let l1 : List String := if 5 < fc then [fillerTip fc] else []
  let l2 : List String := if clarity < 0.6 then [clarityTip] else []
  let l3 : List String := if grammar < 0.6 then [grammarTip] else []
  let l4 : List String := if tone < 0.6 then [toneTip] else []
  let all := l1 ++ l2 ++ l3 ++ l4
  if all = [] then [positiveTip] else all

/-- Result record of analyze_communication. -/
structure CommunicationResult where
  score : ℚ
  filler_words_count : Nat
  filler_words : List String
  clarity_score : ℚ
  grammar_score : ℚ
  tone_score : ℚ
  suggestions : List String
deriving DecidableEq

/-- Error suggestion of the analyze_communication except branch. -/
def errSuggestion : String := "Analysis error occurred"

/-- Neutral fallback returned by the analyze_communication except branch. -/
def commFallback : CommunicationResult :=
  { score := 0.5, filler_words_count := 0, filler_words := [],
    clarity_score := 0.5, grammar_score := 0.5, tone_score := 0.5,
    suggestions := [errSuggestion] }

/-- Composite communication score of analyze_communication before the final two-decimal rounding: the weighted sum of the sub-scores, the sequential filler penalties, then the clamp. -/
def commComposite (o : TextOracle) (transcript : String) : ℚ :=
  let fc := (_detect_filler_words transcript).2
  let base := _calculate_clarity_score o transcript * 0.4
    + _calculate_grammar_score o transcript * 0.3
    + _calculate_tone_score transcript * 0.3
  let s1 := if 5 < fc then base * 0.9 else base
  let s2 := if 10 < fc then s1 * 0.8 else s1
  clamp01 s2

/-- AnalysisService.analyze_communication; fault selects the except branch. -/
def analyze_communication (o : TextOracle) (fault : Bool) (transcript : String) : CommunicationResult :=
  if fault then commFallback
  else
    let fr := _detect_filler_words transcript
    let clarity := _calculate_clarity_score o transcript
    let grammar := _calculate_grammar_score o transcript
    let tone := _calculate_tone_score transcript
    { score := round2 (commComposite o transcript)
      filler_words_count := fr.2
      filler_words := fr.1.dedup
      clarity_score := round2 clarity
      grammar_score := round2 grammar
      tone_score := round2 tone
      suggestions := _generate_communication_suggestions fr.2 clarity grammar tone }

/-- Oracle for the LLMService capability state and the sentence-transformer geometry: modelsLoaded and semanticModelPresent mirror the _models_loaded flag and the semantic_model field, and sim a b is the cosine similarity of the embeddings of a and b computed by numpy. -/
structure TechOracle where
  modelsLoaded : Bool
  semanticModelPresent : Bool
  sim : String → String → ℚ

/-- Domain tag strings used by the domain-keyed tables. -/
def domSoftware : String := "software"

/-- Domain tag for the data-science tables. -/
def domDataScience : String := "data_science"

/-- Domain tag for the electronics tables. -/
def domElectronics : String := "electronics"

/-- Expected concept lexicon for the software domain. -/
def softwareConcepts : List String :=
  ["programming concepts", "software development", "coding best practices", "technical implementation"]

/-- Expected concept lexicon for the data-science domain. -/
def dataScienceConcepts : List String :=
  ["machine learning", "data analysis", "statistical methods", "data processing"]

/-- Expected concept lexicon for the electronics domain. -/
def electronicsConcepts : List String :=
  ["circuit design", "electronic components", "signal processing", "electrical principles"]

/-- Expected concept lexicon for the general domain, the fallback entry. -/
def generalConcepts : List String :=
  ["professional experience", "problem solving", "team collaboration", "technical skills"]

/-- LLMService._get_expected_concepts: concept_map.get(domain, concept_map of general). -/
def _get_expected_concepts (question domain : String) : List String :=
  if domain = domSoftware then softwareConcepts
  else if domain = domDataScience then dataScienceConcepts
  else if domain = domElectronics then electronicsConcepts
  else generalConcepts

/-- Keyword lexicon for the software domain. -/
def softwareKeywords : List String :=
  ["algorithm", "data structure", "api", "database", "framework", "code", "programming"]

/-- Keyword lexicon for the data-science domain. -/
def dataScienceKeywords : List String :=
  ["machine learning", "model", "dataset", "feature", "prediction", "training", "accuracy"]

/-- Keyword lexicon for the electronics domain. -/
def electronicsKeywords : List String :=
  ["circuit", "voltage", "current", "resistor", "transistor", "signal", "digital", "analog"]

/-- Keyword lexicon for the general domain, the fallback entry. -/
def generalKeywords : List String :=
  ["experience", "project", "team", "problem", "solution", "skill"]

/-- LLMService._get_domain_keywords: keywords.get(domain, keywords of general). -/
def _get_domain_keywords (domain : String) : List String :=
  if domain = domSoftware then softwareKeywords
  else if domain = domDataScience then dataScienceKeywords
  else if domain = domElectronics then electronicsKeywords
  else generalKeywords

/-- LLMService._calculate_semantic_score: the capability gate check comes first (unready gives the neutral 0.5); sfault selects the except branch of the remaining body; otherwise combine the answer-question cosine with the mean answer-concept cosine and remap from the [-1,1] range into [0,1]. -/
def _calculate_semantic_score (o : TechOracle) (sfault : Bool) (question answer domain : String) : ℚ :=
  if !o.modelsLoaded || !o.semanticModelPresent then 0.5
  else if sfault then 0.5
  else
    let concepts := _get_expected_concepts question domain
    let questionSimilarity := o.sim answer question
    let conceptSimilarities := concepts.map (fun c => o.sim answer c)
    let avgConceptSimilarity : ℚ :=
      if conceptSimilarities = [] then 0.5
      else conceptSimilarities.sum / (conceptSimilarities.length : ℚ)
    let semanticScore := questionSimilarity * 0.4 + avgConceptSimilarity * 0.6
    (semanticScore + 1) / 2

/-- LLMService._calculate_keyword_score: count keyword substring hits in the lowercase answer and map the count through the density tiers. -/
def _calculate_keyword_score (answer domain : String) : ℚ :=
  let domain_keywords := _get_domain_keywords domain
  let answer_lower := lowerData answer
  let keyword_matches := domain_keywords.countP (fun k => hasSub answer_lower k.data)
  if keyword_matches = 0 then 0.3
  else if keyword_matches < 3 then 0.5
  else if keyword_matches < 5 then 0.7
  else 0.9

/-- LLMService._calculate_length_score: word count tiers on answer.split(). -/
def _calculate_length_score (answer : String) : ℚ :=
  let word_count := (pywords answer).length
  if word_count < 10 then 0.3
  else if word_count < 20 then 0.6
  else if word_count ≤ 100 then 0.9
  else if word_count ≤ 150 then 0.8
  else 0.7

/-- Feedback of _generate_technical_feedback for a score of at least 0.7. -/
def goodFeedback (domain : String) : String :=
  "Good answer! You demonstrated understanding of " ++ domain ++ " concepts. Consider adding more specific examples."

/-- Feedback of _generate_technical_feedback for a score of at least 0.5. -/
def basicFeedback (domain : String) : String :=
  "Your answer shows basic understanding. Try to be more specific and provide concrete examples from " ++ domain ++ "."

/-- Feedback of _generate_technical_feedback for a low score. -/
def depthFeedback (domain : String) : String :=
  "Your answer needs more depth. Review " ++ domain ++ " fundamentals and practice explaining concepts clearly."

/-- LLMService._generate_technical_feedback. -/
def _generate_technical_feedback (question answer domain : String) (score : ℚ) : String :=
  if 0.7 ≤ score then goodFeedback domain
  else if 0.5 ≤ score then basicFeedback domain
  else depthFeedback domain

/-- LLMService._get_improvement_suggestions. -/
def _get_improvement_suggestions (domain : String) (score : ℚ) : List String :=
  if 0.7 ≤ score then
    ["Great job! Continue practicing to maintain consistency.",
     "Try to add more real-world examples to your answers."]
  else if 0.5 ≤ score then
    ["Review fundamental concepts in your domain.",
     "Practice explaining technical concepts in simple terms.",
     "Prepare specific examples from your experience."]
  else
    ["Focus on understanding core concepts in your domain.",
     "Practice answering questions out loud.",
     "Study common interview questions for your field.",
     "Work on structuring your answers clearly."]

/-- Result record of evaluate_response. -/
structure TechnicalResult where
  score : ℚ
  correctness : ℚ
  completeness : ℚ
  relevance : ℚ
  feedback : String
  suggestions : List String
deriving DecidableEq

/-- Error feedback of the evaluate_response except branch. -/
def evalErrFeedback : String := "Evaluation error occurred"

/-- Neutral fallback returned by the evaluate_response except branch. -/
def techFallback : TechnicalResult :=
  { score := 0.5, correctness := 0.5, completeness := 0.5, relevance := 0.5,
    feedback := evalErrFeedback, suggestions := [] }

/-- LLMService.evaluate_response; fault selects the outer except branch and sfault the except branch inside _calculate_semantic_score. -/
def evaluate_response (o : TechOracle) (fault sfault : Bool) (question answer domain : String) : TechnicalResult :=
  if fault then techFallback
  else
    let semantic_score := _calculate_semantic_score o sfault question answer domain
    let keyword_score := _calculate_keyword_score answer domain
    let length_score := _calculate_length_score answer
    let score := clamp01 (semantic_score * 0.5 + keyword_score * 0.3 + length_score * 0.2)
    { score := round2 score
      correctness := round2 semantic_score
      completeness := round2 length_score
      relevance := round2 keyword_score
      feedback := _generate_technical_feedback question answer domain score
      suggestions := _get_improvement_suggestions domain score }

/-- Per-turn communication feedback fields read by ReportService. -/
structure CommFeedback where
  score : ℚ
  filler_words_count : Nat
  clarity_score : ℚ
deriving DecidableEq

/-- Per-turn feedback entry of the session feedback_history. -/
structure TurnFeedback where
  communication : CommFeedback
  technical_score : ℚ
  overall_score : ℚ
deriving DecidableEq

/-- Statistics record of _calculate_statistics; the empty history leaves sessions_completed at zero. -/
structure Statistics where
  overall_score : ℚ
  avg_communication : ℚ
  avg_technical : ℚ
  total_filler_words : Nat
  avg_clarity : ℚ
  sessions_completed : Nat
deriving DecidableEq

/-- ReportService._calculate_statistics. -/
def _calculate_statistics (feedback_history : List TurnFeedback) : Statistics :=
  if feedback_history = [] then
    { overall_score := 0, avg_communication := 0, avg_technical := 0,
      total_filler_words := 0, avg_clarity := 0, sessions_completed := 0 }
  else
    let n : ℚ := (feedback_history.length : ℚ)
    { overall_score := round2 ((feedback_history.map (fun f => f.overall_score)).sum / n)
      avg_communication := round2 ((feedback_history.map (fun f => f.communication.score)).sum / n)
      avg_technical := round2 ((feedback_history.map (fun f => f.technical_score)).sum / n)
      total_filler_words := (feedback_history.map (fun f => f.communication.filler_words_count)).sum
      avg_clarity := round2 ((feedback_history.map (fun f => f.communication.clarity_score)).sum / n)
      sessions_completed := feedback_history.length }

/-- Strength message for strong communication. -/
def sStrongComm : String := "Strong communication skills"

/-- Strength message for a good communication foundation. -/
def sGoodComm : String := "Good communication foundation"

/-- Strength message for solid technical knowledge. -/
def sSolidTech : String := "Solid technical knowledge"

/-- Strength message for good technical understanding. -/
def sGoodTech : String := "Good technical understanding"

/-- Strength message for minimal filler words. -/
def sMinimalFiller : String := "Minimal use of filler words"

/-- Strength message for clear responses. -/
def sClear : String := "Clear and articulate responses"

/-- Strength message when no strength rule fires. -/
def sPotential : String := "Shows potential with practice"

/-- Strength message for an empty history. -/
def sNoData : String := "No data available"

/-- ReportService._identify_strengths. -/
def _identify_strengths (feedback_history : List TurnFeedback) : List String :=
  if feedback_history = [] then [sNoData]
  else
    let n : ℚ := (feedback_history.length : ℚ)
    let avg_comm := (feedback_history.map (fun f => f.communication.score)).sum / n
    let avg_tech := (feedback_history.map (fun f => f.technical_score)).sum / n
    let avg_fillers := (feedback_history.map (fun f => (f.communication.filler_words_count : ℚ))).sum / n
    let avg_clarity := (feedback_history.map (fun f => f.communication.clarity_score)).sum / n
    let l1 : List String :=
      if 0.7 ≤ avg_comm then [sStrongComm] else if 0.6 ≤ avg_comm then [sGoodComm] else []
    let l2 : List String :=
      if 0.7 ≤ avg_tech then [sSolidTech] else if 0.6 ≤ avg_tech then [sGoodTech] else []
    let l3 : List String := if avg_fillers < 3 then [sMinimalFiller] else []
    let l4 : List String := if 0.7 ≤ avg_clarity then [sClear] else []
    let all := l1 ++ l2 ++ l3 ++ l4
    if all = [] then [sPotential] else all

/-- Weakness message for weak communication. -/
def wWeakComm : String := "Communication skills need improvement"

/-- Weakness message for weak technical knowledge. -/
def wWeakTech : String := "Technical knowledge needs strengthening"

/-- Format a nonnegative rational to one decimal place, mirroring the .1f format specifier. -/
def fmt1 (q : ℚ) : String :=
  let n : ℤ := round (q * 10)
  toString (n / 10) ++ "." ++ toString (n % 10)

/-- Weakness message for heavy filler use, embedding the one-decimal average. -/
def wFiller (avg : ℚ) : String :=
  "High use of filler words (average: " ++ fmt1 avg ++ ")"

/-- Weakness message for weak clarity. -/
def wClarity : String := "Response clarity needs improvement"

/-- Weakness message for an empty history. -/
def wMoreSessions : String := "Complete more sessions for analysis"

/-- Weakness message when no weakness rule fires. -/
def wMaintain : String := "Continue practicing to maintain performance"

/-- ReportService._identify_weaknesses. -/
def _identify_weaknesses (feedback_history : List TurnFeedback) : List String :=
  if feedback_history = [] then [wMoreSessions]
  else
    let n : ℚ := (feedback_history.length : ℚ)
    let avg_comm := (feedback_history.map (fun f => f.communication.score)).sum / n
    let avg_tech := (feedback_history.map (fun f => f.technical_score)).sum / n
    let avg_fillers := (feedback_history.map (fun f => (f.communication.filler_words_count : ℚ))).sum / n
    let avg_clarity := (feedback_history.map (fun f => f.communication.clarity_score)).sum / n
    let l1 : List String := if avg_comm < 0.6 then [wWeakComm] else []
    let l2 : List String := if avg_tech < 0.6 then [wWeakTech] else []
    let l3 : List String := if 5 < avg_fillers then [wFiller avg_fillers] else []
    let l4 : List String := if avg_clarity < 0.6 then [wClarity] else []
    let all := l1 ++ l2 ++ l3 ++ l4
    if all = [] then [wMaintain] else all

/-- Improvement plan block record. -/
structure PlanItem where
  area : String
  priority : String
  actions : List String
  resources : List String
deriving DecidableEq

/-- Communication block of _generate_improvement_plan. -/
def commPlanItem : PlanItem :=
  { area := "Communication", priority := "High",
    actions :=
      ["Practice speaking out loud daily",
       "Record yourself answering questions",
       "Focus on reducing filler words",
       "Work on sentence structure and clarity"],
    resources :=
      ["Join public speaking groups",
       "Practice with mock interviews",
       "Use voice recording apps for self-review"] }

/-- Technical block of _generate_improvement_plan, interpolating the domain name. -/
def techPlanItem (domain : String) : PlanItem :=
  { area := "Technical Knowledge", priority := "High",
    actions :=
      ["Review fundamental concepts in " ++ domain,
       "Practice explaining technical concepts simply",
       "Work on coding problems (if applicable)",
       "Study common interview questions for your domain"],
    resources :=
      ["Online courses and tutorials",
       "Technical blogs and documentation",
       "Practice platforms (LeetCode, HackerRank, etc.)"] }

/-- Filler-words block of _generate_improvement_plan. -/
def fillerPlanItem : PlanItem :=
  { area := "Filler Words", priority := "Medium",
    actions :=
      ["Practice pausing instead of using filler words",
       "Slow down your speech slightly",
       "Think before speaking",
       "Use silence as a tool, not filler words"],
    resources :=
      ["Speech therapy techniques",
       "Mindfulness and breathing exercises"] }

/-- Maintenance block of _generate_improvement_plan when no rule fires. -/
def maintenancePlanItem : PlanItem :=
  { area := "Maintenance", priority := "Low",
    actions :=
      ["Continue regular practice",
       "Maintain consistency in performance",
       "Challenge yourself with harder questions"],
    resources := [] }

/-- ReportService._generate_improvement_plan; the weaknesses argument is kept for signature fidelity and is unused, as in the source. -/
def _generate_improvement_plan (weaknesses : List String) (domain : String) (stats : Statistics) : List PlanItem :=
  let l1 : List PlanItem := if stats.avg_communication < 0.7 then [commPlanItem] else []
  let l2 : List PlanItem := if stats.avg_technical < 0.7 then [techPlanItem domain] else []
  let l3 : List PlanItem := if 10 < stats.total_filler_words then [fillerPlanItem] else []
  let all := l1 ++ l2 ++ l3
  if all = [] then [maintenancePlanItem] else all

/-- Recommendation strings of _generate_recommendations. -/
def rExcellent : String := "Excellent performance! You are well-prepared for interviews."

/-- Recommendation string following the excellent tier. -/
def rContinue : String := "Continue practicing to maintain your skills and confidence."

/-- Recommendation string of the middle tier. -/
def rProgress : String := "You are making good progress. Focus on identified weak areas."

/-- Recommendation string following the middle tier. -/
def rFrequent : String := "Practice more frequently to build consistency."

/-- Recommendation string of the low tier. -/
def rFundamentals : String := "Focus on fundamentals before moving to advanced topics."

/-- Recommendation string following the low tier. -/
def rStructured : String := "Consider structured learning programs for your domain."

/-- Domain-referencing closing recommendation. -/
def rPractice (domain : String) : String :=
  "Practice " ++ domain ++ " specific questions regularly."

/-- Final closing recommendation. -/
def rRecord : String := "Record your practice sessions and review them critically."

/-- ReportService._generate_recommendations. -/
def _generate_recommendations (domain : String) (stats : Statistics) : List String :=
  (if 0.7 ≤ stats.overall_score then [rExcellent, rContinue]
   else if 0.5 ≤ stats.overall_score then [rProgress, rFrequent]
   else [rFundamentals, rStructured])
  ++ [rPractice domain, rRecord]

/-- Session data record consumed by generate_report. -/
structure SessionData where
  session_id : Option String
  questions : List String
  answers : List String
  feedback_history : List TurnFeedback

/-- Report record produced by generate_report; the summary sub-dictionary is flattened into the summary-prefixed fields. -/
structure Report where
  session_id : Option String
  domain : String
  date : String
  summary_total_questions : Nat
  summary_overall_score : ℚ
  summary_communication_score : ℚ
  summary_technical_score : ℚ
  statistics : Statistics
  strengths : List String
  weaknesses : List String
  improvement_plan : List PlanItem
  detailed_feedback : List TurnFeedback
  recommendations : List String

/-- ReportService.generate_report; the wall-clock reading datetime.now().isoformat() is passed in as the explicit argument now. -/
def generate_report (now : String) (session_data : SessionData) (domain : String) : Report :=
  let stats := _calculate_statistics session_data.feedback_history
  let strengths := _identify_strengths session_data.feedback_history
  let weaknesses := _identify_weaknesses session_data.feedback_history
  let improvement_plan := _generate_improvement_plan weaknesses domain stats
  { session_id := session_data.session_id
    domain := domain
    date := now
    summary_total_questions := session_data.questions.length
    summary_overall_score := stats.overall_score
    summary_communication_score := stats.avg_communication
    summary_technical_score := stats.avg_technical
    statistics := stats
    strengths := strengths
    weaknesses := weaknesses
    improvement_plan := improvement_plan
    detailed_feedback := session_data.feedback_history
    recommendations := _generate_recommendations domain stats }

/-- Empty string fixture. -/
def emptyStr : String := ""

/-- Mixed-case filler fixture from the testable properties. -/
def umTestStr : String := "Um, I think UM so"

/-- Fixture showing that like inside likely is not a whole-word match. -/
def likelyStr : String := "likely"

/-- The filler word um. -/
def umWord : String := "um"

/-- A string of n copies of the letter w separated by single spaces, so its word count is n. -/
def repWord (n : Nat) : String := String.mk ((List.replicate n 'w').intersperse ' ')

/-- Sample oracle whose tokenizer returns the whole text as one sentence and whose readability index is the constant 50. -/
def oW : TextOracle := { sentTokenize := fun s => [s], flesch := fun _ => some 50 }

/-- Sample oracle whose tokenizer returns no sentences and whose readability computation fails. -/
def oW9 : TextOracle := { sentTokenize := fun _ => [], flesch := fun _ => none }

/-- Transcript consisting of eleven filler words. -/
def umStr11 : String := "um um um um um um um um um um um"

/-- Transcript of the same shape with no filler words. -/
def aaStr11 : String := "aa aa aa aa aa aa aa aa aa aa aa"

/-- Sentence fixture that ends properly and starts uppercase. -/
def helloStr : String := "Hello."

/-- Technical oracle with both capabilities ready and all cosine similarities zero. -/
def oTechReady : TechOracle := { modelsLoaded := true, semanticModelPresent := true, sim := fun _ _ => 0 }

/-- Technical oracle whose model loading has failed. -/
def oTechOff : TechOracle := { modelsLoaded := false, semanticModelPresent := true, sim := fun _ _ => 0 }

/-- Sample question fixture. -/
def sampleQuestion : String := "What is a database index?"

/-- Sample answer fixture. -/
def sampleAnswer : String := "An index speeds up lookups."

/-- Whether the first character of a string exists and is not whitespace. -/
def headNonWs (f : String) : Bool :=
  match f.data.head? with
  | none => false
  | some c => !c.isWhitespace

/-- Lower bound of the clamp. -/
theorem clamp01_nonneg (x : ℚ) : 0 ≤ clamp01 x := le_max_left 0 _

/-- Upper bound of the clamp. -/
theorem clamp01_le_one (x : ℚ) : clamp01 x ≤ 1 := max_le (by norm_num) (min_le_left 1 x)

/-- The clamp is the identity on the unit interval. -/
theorem clamp01_eq_self {x : ℚ} (h0 : 0 ≤ x) (h1 : x ≤ 1) : clamp01 x = x := by
  unfold clamp01
  rw [min_eq_right h1, max_eq_right h0]

/-- Lower bounds at most one are preserved by the clamp. -/
theorem clamp01_ge {c x : ℚ} (hc : c ≤ 1) (hx : c ≤ x) : c ≤ clamp01 x :=
  le_max_of_le_right (le_min hc hx)

/-- Two-decimal rounding preserves nonnegativity. -/
theorem round2_nonneg {x : ℚ} (hx : 0 ≤ x) : 0 ≤ round2 x := by
  unfold round2
  apply div_nonneg _ (by norm_num)
  have h : (0 : ℤ) ≤ round (x * 100) := by
    rw [round_eq]
    exact Int.le_floor.mpr (by push_cast; linarith)
  exact_mod_cast h

/-- Two-decimal rounding preserves being at most one. -/
theorem round2_le_one {x : ℚ} (hx : x ≤ 1) : round2 x ≤ 1 := by
  unfold round2
  rw [div_le_one (by norm_num : (0:ℚ) < 100)]
  have h : round (x * 100) ≤ 100 := by
    rw [round_eq]
    have h1 : x * 100 + 1 / 2 < ((101 : ℤ) : ℚ) := by push_cast; linarith
    have h2 := Int.floor_lt.mpr h1
    omega
  exact_mod_cast h

/-- Two-decimal rounding moves a value by at most half a hundredth. -/
theorem round2_bounds (x : ℚ) : x - 1 / 200 ≤ round2 x ∧ round2 x ≤ x + 1 / 200 := by
  have h := abs_sub_round (x * 100)
  rw [abs_le] at h
  unfold round2
  constructor <;> linarith [h.1, h.2]

/-- Elements bounded above bound a list sum by the scaled length. -/
theorem list_sum_le_card (l : List ℚ) (c : ℚ) (h : ∀ x ∈ l, x ≤ c) : l.sum ≤ (l.length : ℚ) * c := by
  induction l with
  | nil => simp
  | cons a t ih =>
    simp only [List.sum_cons, List.length_cons]
    have ha := h a (by simp)
    have ht := ih (fun x hx => h x (by simp [hx]))
    push_cast
    linarith

/-- Elements bounded below bound a list sum from below by the scaled length. -/
theorem card_mul_le_list_sum (l : List ℚ) (c : ℚ) (h : ∀ x ∈ l, c ≤ x) : (l.length : ℚ) * c ≤ l.sum := by
  induction l with
  | nil => simp
  | cons a t ih =>
    simp only [List.sum_cons, List.length_cons]
    have ha := h a (by simp)
    have ht := ih (fun x hx => h x (by simp [hx]))
    push_cast
    linarith

/-- Clarity score lies in the unit interval for every oracle and text. -/
theorem clarity_score_mem (o : TextOracle) (t : String) :
    0 ≤ _calculate_clarity_score o t ∧ _calculate_clarity_score o t ≤ 1 := by
  unfold _calculate_clarity_score
  by_cases h1 : pyBlank t = true
  · rw [if_pos h1]
    norm_num
  · rw [if_neg h1]
    dsimp only
    by_cases h2 : o.sentTokenize t = []
    · rw [if_pos h2]
      norm_num
    · rw [if_neg h2]
      exact ⟨clamp01_nonneg _, clamp01_le_one _⟩

/-- Grammar score lies in the unit interval for every oracle and text. -/
theorem grammar_score_mem (o : TextOracle) (t : String) :
    0 ≤ _calculate_grammar_score o t ∧ _calculate_grammar_score o t ≤ 1 := by
  unfold _calculate_grammar_score
  by_cases h1 : pyBlank t = true
  · rw [if_pos h1]
    norm_num
  · rw [if_neg h1]
    dsimp only
    by_cases h2 : o.sentTokenize t = []
    · rw [if_pos h2]
      norm_num
    · rw [if_neg h2]
      exact ⟨clamp01_nonneg _, clamp01_le_one _⟩

/-- Tone score lies in the unit interval for every text. -/
theorem tone_score_mem (t : String) :
    0 ≤ _calculate_tone_score t ∧ _calculate_tone_score t ≤ 1 := by
  unfold _calculate_tone_score
  by_cases h1 : pyBlank t = true
  · rw [if_pos h1]
    norm_num
  · rw [if_neg h1]
    dsimp only
    exact ⟨clamp01_nonneg _, clamp01_le_one _⟩

/-- Tone score is at least one half for every text: the hedging deduction is capped at 0.2 below the 0.7 base. -/
theorem tone_score_ge_half (t : String) : 1 / 2 ≤ _calculate_tone_score t := by
  unfold _calculate_tone_score
  dsimp only
  split_ifs
  · norm_num
  · apply clamp01_ge (by norm_num)
    have hpos : (0:ℚ) ≤ min 0.2 ((positive_words.countP (fun w => hasSub (lowerData t) w.data) : ℚ) * 0.05) :=
      le_min (by norm_num) (by positivity)
    have hneg : min 0.2 ((negative_words.countP (fun w => hasSub (lowerData t) w.data) : ℚ) * 0.05) ≤ 0.2 :=
      min_le_left _ _
    have hprof : (0:ℚ) ≤ min 0.1 ((professional_words.countP (fun w => hasSub (lowerData t) w.data) : ℚ) * 0.02) :=
      le_min (by norm_num) (by positivity)
    linarith

/-- Grammar score is at least one half for every non-blank text. -/
theorem grammar_score_ge_half (o : TextOracle) (t : String) (hb : pyBlank t = false) :
    1 / 2 ≤ _calculate_grammar_score o t := by
  unfold _calculate_grammar_score
  dsimp only
  rw [hb]
  simp only [Bool.false_eq_true, if_false]
  split_ifs
  · norm_num
  · apply clamp01_ge (by norm_num)
    have h1 : (0:ℚ) ≤ ((o.sentTokenize t).countP endsProper : ℚ) / ((o.sentTokenize t).length : ℚ) := by positivity
    have h2 : (0:ℚ) ≤ ((o.sentTokenize t).countP startsUpper : ℚ) / ((o.sentTokenize t).length : ℚ) := by positivity
    linarith

/-- Lowercasing fixes whitespace characters. -/
theorem toLower_of_ws {c : Char} (h : c.isWhitespace = true) : Char.toLower c = c := by
  have h4 : ((c = ' ' ∨ c = '\t') ∨ c = '\r') ∨ c = '\n' := by
    simpa [Char.isWhitespace] using h
  rcases h4 with ((h | h) | h) | h <;> subst h <;> decide

/-- A blank text stays all-whitespace after lowercasing. -/
theorem all_ws_lowerData {t : String} (h : pyBlank t = true) : (lowerData t).all Char.isWhitespace = true := by
  unfold pyBlank at h
  unfold lowerData
  rw [List.all_eq_true] at h ⊢
  intro c hc
  rw [List.mem_map] at hc
  obtain ⟨a, ha, rfl⟩ := hc
  rw [toLower_of_ws (h a ha)]
  exact h a ha

/-- A pattern starting with a non-whitespace character never matches inside all-whitespace text. -/
theorem scanWB_all_ws (pat : List Char) (p0 : Char) (hp : pat.head? = some p0)
    (h0 : p0.isWhitespace = false) :
    ∀ (fuel : Nat) (prev : Option Char) (cs : List Char),
      cs.all Char.isWhitespace = true → scanWB pat fuel prev cs = 0 := by
  intro fuel
  induction fuel with
  | zero =>
    intro prev cs hcs
    rfl
  | succ n ih =>
    intro prev cs hcs
    cases cs with
    | nil => rfl
    | cons c rest =>
      rw [List.all_cons, Bool.and_eq_true] at hcs
      have hmatch : wbMatchAt pat prev (c :: rest) = false := by
        unfold wbMatchAt
        cases pat with
        | nil => simp at hp
        | cons q qs =>
          have hq : q = p0 := by simpa using hp
          have hqws : q.isWhitespace = false := by rw [hq]; exact h0
          have hne : q ≠ c := by
            intro e
            rw [e, hcs.1] at hqws
            cases hqws
          have hbeq : (q == c) = false := beq_eq_false_iff_ne.mpr hne
          have hpref : (q :: qs).isPrefixOf (c :: rest) = false := by
            simp [List.isPrefixOf, hbeq]
          rw [hpref]
          simp
      have hstep : scanWB pat (n + 1) prev (c :: rest) = scanWB pat n (some c) rest := by
        simp [scanWB, hmatch]
      rw [hstep]
      exact ih (some c) rest hcs.2

/-- A blank text contains no filler occurrences. -/
theorem detect_fillers_blank {t : String} (hb : pyBlank t = true) : (_detect_filler_words t).2 = 0 := by
  have hws := all_ws_lowerData hb
  unfold _detect_filler_words
  dsimp only
  rw [List.length_flatten, List.map_map]
  apply List.sum_eq_zero
  intro x hx
  rw [List.mem_map] at hx
  obtain ⟨f, hf, rfl⟩ := hx
  simp only [Function.comp, List.length_replicate]
  have hhead : headNonWs f = true := by
    have hall : filler_words.all headNonWs = true := by decide
    rw [List.all_eq_true] at hall
    exact hall f hf
  cases hh : f.data.head? with
  | none =>
    unfold headNonWs at hhead
    rw [hh] at hhead
    cases hhead
  | some p0 =>
    apply scanWB_all_ws f.data p0 hh _ _ _ _ hws
    unfold headNonWs at hhead
    rw [hh] at hhead
    simpa using hhead

/-- A text with a filler occurrence is not blank. -/
theorem not_blank_of_fillers {t : String} (h : (_detect_filler_words t).2 ≠ 0) : pyBlank t = false := by
  cases hb : pyBlank t
  · rfl
  · exact absurd (detect_fillers_blank hb) h

/-- Length score always lies in the unit interval. -/
theorem length_score_mem (answer : String) :
    0 ≤ _calculate_length_score answer ∧ _calculate_length_score answer ≤ 1 := by
  unfold _calculate_length_score
  dsimp only
  split_ifs <;> constructor <;> norm_num

/-- Keyword score always lies in the unit interval. -/
theorem keyword_score_mem (answer domain : String) :
    0 ≤ _calculate_keyword_score answer domain ∧ _calculate_keyword_score answer domain ≤ 1 := by
  unfold _calculate_keyword_score
  dsimp only
  split_ifs <;> constructor <;> norm_num

/-- Semantic score lies in the unit interval whenever all cosine similarities lie in the closed interval from minus one to one. -/
theorem semantic_score_mem (p : TechOracle) (sfault : Bool) (question answer domain : String)
    (hsim : ∀ x y : String, -1 ≤ p.sim x y ∧ p.sim x y ≤ 1) :
    0 ≤ _calculate_semantic_score p sfault question answer domain
  ∧ _calculate_semantic_score p sfault question answer domain ≤ 1 := by
  unfold _calculate_semantic_score
  by_cases h1 : (!p.modelsLoaded || !p.semanticModelPresent) = true
  · rw [if_pos h1]
    norm_num
  · rw [if_neg h1]
    by_cases h2 : sfault = true
    · rw [if_pos h2]
      norm_num
    · rw [if_neg h2]
      dsimp only
      have hq := hsim answer question
      set L := (_get_expected_concepts question domain).map (fun c => p.sim answer c) with hL
      have hmem : ∀ x ∈ L, -1 ≤ x ∧ x ≤ 1 := by
        intro x hx
        rw [hL, List.mem_map] at hx
        obtain ⟨c, _, rfl⟩ := hx
        exact hsim answer c
      have havg : -1 ≤ (if L = [] then (0.5:ℚ) else L.sum / (L.length : ℚ))
          ∧ (if L = [] then (0.5:ℚ) else L.sum / (L.length : ℚ)) ≤ 1 := by
        split_ifs with hL0
        · norm_num
        · have hlen : (0:ℚ) < (L.length : ℚ) := by
            exact_mod_cast List.length_pos.mpr hL0
          constructor
          · rw [le_div_iff₀ hlen]
            have hlow := card_mul_le_list_sum L (-1) (fun x hx => (hmem x hx).1)
            linarith
          · rw [div_le_one hlen]
            have hhigh := list_sum_le_card L 1 (fun x hx => (hmem x hx).2)
            linarith
      constructor
      · apply div_nonneg _ (by norm_num)
        linarith [hq.1, havg.1]
      · rw [div_le_one (by norm_num : (0:ℚ) < 2)]
        linarith [hq.2, havg.2]

/-- Clarity score is one half when the tokenizer yields no sentences on a non-blank text. -/
theorem clarity_score_no_sentences (o : TextOracle) (t : String) (hb : pyBlank t = false)
    (hs : o.sentTokenize t = []) : _calculate_clarity_score o t = 0.5 := by
  unfold _calculate_clarity_score
  rw [hb]
  simp only [Bool.false_eq_true, if_false]
  rw [if_pos hs]

/-- Grammar score is one half when the tokenizer yields no sentences on a non-blank text. -/
theorem grammar_score_no_sentences (o : TextOracle) (t : String) (hb : pyBlank t = false)
    (hs : o.sentTokenize t = []) : _calculate_grammar_score o t = 0.5 := by
  unfold _calculate_grammar_score
  rw [hb]
  simp only [Bool.false_eq_true, if_false]
  rw [if_pos hs]

/-- Tone score is exactly the 0.7 base when no lexicon word occurs in the non-blank text. -/
theorem tone_score_no_hits (t : String) (hb : pyBlank t = false)
    (hp : positive_words.countP (fun w => hasSub (lowerData t) w.data) = 0)
    (hn : negative_words.countP (fun w => hasSub (lowerData t) w.data) = 0)
    (hpr : professional_words.countP (fun w => hasSub (lowerData t) w.data) = 0) :
    _calculate_tone_score t = 0.7 := by
  unfold _calculate_tone_score
  rw [hb]
  simp only [Bool.false_eq_true, if_false]
  rw [hp, hn, hpr]
  norm_num [clamp01]

/-- The grammar tip differs from every filler tip. -/
theorem grammarTip_ne_fillerTip (n : Nat) : grammarTip ≠ fillerTip n := by
  intro h
  have hd : grammarTip.data.head? = (fillerTip n).data.head? := by rw [h]
  have h1 : grammarTip.data.head? = some 'W' := rfl
  have h2 : (fillerTip n).data.head? = some 'R' := rfl
  rw [h1, h2] at hd
  simp at hd

/-- A grammar score of at least 0.6 suppresses the grammar tip. -/
theorem grammarTip_not_emitted (fc : Nat) (clarity grammar tone : ℚ) (hg : ¬ grammar < 0.6) :
    grammarTip ∉ _generate_communication_suggestions fc clarity grammar tone := by
  intro hmem
  unfold _generate_communication_suggestions at hmem
  dsimp only at hmem
  rw [if_neg hg] at hmem
  have hne1 := grammarTip_ne_fillerTip fc
  have hne2 : grammarTip ≠ clarityTip := by decide
  have hne3 : grammarTip ≠ toneTip := by decide
  have hne4 : grammarTip ≠ positiveTip := by decide
  split_ifs at hmem <;>
    simp only [List.mem_append, List.mem_singleton, List.not_mem_nil, or_false, false_or] at hmem <;>
    tauto

/-- C2: for every transcript, the communication composite equals 0.4 times clarity plus 0.3 times grammar plus 0.3 times tone, multiplied by 0.9 when the filler count exceeds 5 and by a further 0.8 when it exceeds 10 (a compounding net factor of 0.72 beyond 10 fillers), and finally clamped to the unit interval; the returned score field is that composite rounded to two decimals. -/
theorem communication_composite_formula (o : TextOracle) (t : String) :
    commComposite o t =
      clamp01 ((0.4 * _calculate_clarity_score o t + 0.3 * _calculate_grammar_score o t
          + 0.3 * _calculate_tone_score t)
        * (if 10 < (_detect_filler_words t).2 then 0.72
           else if 5 < (_detect_filler_words t).2 then 0.9 else 1))
    ∧ (analyze_communication o false t).score = round2 (commComposite o t) := by
  constructor
  · unfold commComposite
    dsimp only
    by_cases h10 : 10 < (_detect_filler_words t).2
    · have h5 : 5 < (_detect_filler_words t).2 := by omega
      rw [if_pos h5, if_pos h10, if_pos h10]
      congr 1
      ring
    · rw [if_neg h10, if_neg h10]
      by_cases h5 : 5 < (_detect_filler_words t).2
      · rw [if_pos h5, if_pos h5]
        congr 1
        ring
      · rw [if_neg h5, if_neg h5]
        congr 1
        ring
  · rfl

/-- C3: whenever the capability gate is unready (models not loaded, in particular after a terminal load failure, or the semantic model absent), the semantic score is the neutral 0.5 and the technical evaluation returns correctness 0.5, for every question, answer and domain, and regardless of any fault flags. -/
theorem capability_unready_neutral_correctness (o : TechOracle) (fault sfault : Bool)
    (question answer domain : String)
    (h : o.modelsLoaded = false ∨ o.semanticModelPresent = false) :
    _calculate_semantic_score o sfault question answer domain = 0.5
  ∧ (evaluate_response o fault sfault question answer domain).correctness = 0.5 := by
  have hsem : _calculate_semantic_score o sfault question answer domain = 0.5 := by
    unfold _calculate_semantic_score
    have hcond : (!o.modelsLoaded || !o.semanticModelPresent) = true := by
      rcases h with h | h <;> simp [h]
    rw [if_pos hcond]
  refine ⟨hsem, ?_⟩
  cases fault with
  | true => rfl
  | false =>
    show (evaluate_response o false sfault question answer domain).correctness = 0.5
    unfold evaluate_response
    simp only [Bool.false_eq_true, if_false]
    rw [hsem]
    norm_num [round2, round_eq]

/-- Witness for C3 at a concrete failed-load oracle and concrete texts. -/
theorem capability_unready_neutral_correctness_witness :
    (oTechOff.modelsLoaded = false ∨ oTechOff.semanticModelPresent = false)
  ∧ _calculate_semantic_score oTechOff false sampleQuestion sampleAnswer domSoftware = 0.5
  ∧ (evaluate_response oTechOff false false sampleQuestion sampleAnswer domSoftware).correctness = 0.5 := by
  have h := capability_unready_neutral_correctness oTechOff false false sampleQuestion sampleAnswer
    domSoftware (Or.inl rfl)
  exact ⟨Or.inl rfl, h.1, h.2⟩

/-- C4: report synthesis is deterministic in the session history and domain: two calls with different wall-clock readings agree on the summary, statistics, strengths, weaknesses, improvement plan, detailed feedback and recommendations, with only the date differing. -/
theorem report_synthesis_deterministic (now1 now2 : String) (sd : SessionData) (domain : String) :
    (generate_report now1 sd domain).statistics = (generate_report now2 sd domain).statistics
  ∧ (generate_report now1 sd domain).strengths = (generate_report now2 sd domain).strengths
  ∧ (generate_report now1 sd domain).weaknesses = (generate_report now2 sd domain).weaknesses
  ∧ (generate_report now1 sd domain).improvement_plan = (generate_report now2 sd domain).improvement_plan
  ∧ (generate_report now1 sd domain).recommendations = (generate_report now2 sd domain).recommendations
  ∧ (generate_report now1 sd domain).summary_total_questions = (generate_report now2 sd domain).summary_total_questions
  ∧ (generate_report now1 sd domain).summary_overall_score = (generate_report now2 sd domain).summary_overall_score
  ∧ (generate_report now1 sd domain).summary_communication_score = (generate_report now2 sd domain).summary_communication_score
  ∧ (generate_report now1 sd domain).summary_technical_score = (generate_report now2 sd domain).summary_technical_score
  ∧ (generate_report now1 sd domain).detailed_feedback = (generate_report now2 sd domain).detailed_feedback :=
  ⟨rfl, rfl, rfl, rfl, rfl, rfl, rfl, rfl, rfl, rfl⟩

/-- C5: the technical length score is tiered on the word count exactly as under 10 words 0.3, 10 to 19 words 0.6, 20 to 100 words 0.9, 101 to 150 words 0.8 and beyond 150 words 0.7; in particular exactly 10, 20, 100 and 150 words give 0.6, 0.9, 0.9 and 0.8. -/
theorem length_score_tier_boundaries (s : String) :
    ((pywords s).length < 10 → _calculate_length_score s = 0.3)
  ∧ (10 ≤ (pywords s).length → (pywords s).length < 20 → _calculate_length_score s = 0.6)
  ∧ (20 ≤ (pywords s).length → (pywords s).length ≤ 100 → _calculate_length_score s = 0.9)
  ∧ (100 < (pywords s).length → (pywords s).length ≤ 150 → _calculate_length_score s = 0.8)
  ∧ (150 < (pywords s).length → _calculate_length_score s = 0.7)
  ∧ ((pywords s).length = 10 → _calculate_length_score s = 0.6)
  ∧ ((pywords s).length = 20 → _calculate_length_score s = 0.9)
  ∧ ((pywords s).length = 100 → _calculate_length_score s = 0.9)
  ∧ ((pywords s).length = 150 → _calculate_length_score s = 0.8) := by
  unfold _calculate_length_score
  refine ⟨fun h => ?_, fun h1 h2 => ?_, fun h1 h2 => ?_, fun h1 h2 => ?_, fun h => ?_,
    fun h => ?_, fun h => ?_, fun h => ?_, fun h => ?_⟩
  · rw [if_pos h]
  · rw [if_neg (by omega), if_pos h2]
  · rw [if_neg (by omega), if_neg (by omega), if_pos h2]
  · rw [if_neg (by omega), if_neg (by omega), if_neg (by omega), if_pos h2]
  · rw [if_neg (by omega), if_neg (by omega), if_neg (by omega), if_neg (by omega)]
  · rw [if_neg (by omega), if_pos (by omega)]
  · rw [if_neg (by omega), if_neg (by omega), if_pos (by omega)]
  · rw [if_neg (by omega), if_neg (by omega), if_pos (by omega)]
  · rw [if_neg (by omega), if_neg (by omega), if_neg (by omega), if_pos (by omega)]

/-- Witness for C5 at answers of exactly 10, 20, 100 and 150 words. -/
theorem length_score_tier_boundaries_witness :
    _calculate_length_score (repWord 10) = 0.6
  ∧ _calculate_length_score (repWord 20) = 0.9
  ∧ _calculate_length_score (repWord 100) = 0.9
  ∧ _calculate_length_score (repWord 150) = 0.8 :=
  ⟨(length_score_tier_boundaries (repWord 10)).2.2.2.2.2.1 (by decide),
   (length_score_tier_boundaries (repWord 20)).2.2.2.2.2.2.1 (by decide),
   (length_score_tier_boundaries (repWord 100)).2.2.2.2.2.2.2.1 (by decide),
   (length_score_tier_boundaries (repWord 150)).2.2.2.2.2.2.2.2 (by decide)⟩

/-- C6: filler detection on the empty text yields the empty occurrence list and count zero; on the mixed-case text it finds exactly two case-insensitive whole-word occurrences of um; and the filler like inside likely is not matched, so that text yields no occurrences at all. -/
theorem filler_detection_word_boundary_cases :
    _detect_filler_words emptyStr = ([], 0)
  ∧ (_detect_filler_words umTestStr).1.count umWord = 2
  ∧ _detect_filler_words likelyStr = ([], 0) :=
  ⟨by decide, by decide, by decide⟩

/-- C7 counterexample: the fault fallback of the technical scorer does not have empty feedback; its feedback is the fixed error message. -/
theorem technical_fault_fallback_feedback_nonempty :
    (evaluate_response oTechOff true false sampleQuestion sampleAnswer domSoftware).feedback ≠ emptyStr := by
  decide

/-- C7 amended: on any internal fault the technical scorer returns the fixed neutral result whose four score fields are all 0.5, whose suggestions are empty, and whose feedback is the fixed string of evalErrFeedback rather than the empty string. -/
theorem technical_fault_fallback_fixed_neutral (o : TechOracle) (sfault : Bool)
    (question answer domain : String) :
    evaluate_response o true sfault question answer domain = techFallback
  ∧ techFallback.score = 0.5 ∧ techFallback.correctness = 0.5
  ∧ techFallback.completeness = 0.5 ∧ techFallback.relevance = 0.5
  ∧ techFallback.feedback = evalErrFeedback ∧ techFallback.suggestions = [] :=
  ⟨rfl, rfl, rfl, rfl, rfl, rfl, rfl⟩

/-- C8: synthesizing a report from an empty feedback history is not a fault: the five summary statistics are all zero and the weaknesses list is exactly the single complete-more-sessions message. -/
theorem empty_history_report_zero_stats (now domain : String) (sid : Option String)
    (qs ans : List String) :
    (generate_report now ⟨sid, qs, ans, []⟩ domain).statistics.overall_score = 0
  ∧ (generate_report now ⟨sid, qs, ans, []⟩ domain).statistics.avg_communication = 0
  ∧ (generate_report now ⟨sid, qs, ans, []⟩ domain).statistics.avg_technical = 0
  ∧ (generate_report now ⟨sid, qs, ans, []⟩ domain).statistics.total_filler_words = 0
  ∧ (generate_report now ⟨sid, qs, ans, []⟩ domain).statistics.avg_clarity = 0
  ∧ (generate_report now ⟨sid, qs, ans, []⟩ domain).weaknesses = [wMoreSessions] :=
  ⟨rfl, rfl, rfl, rfl, rfl, rfl⟩

/-- C9: for two transcripts whose clarity, grammar and tone scores agree and whose filler counts are 11 and 0, the returned communication score of the filler-laden transcript is at most 0.75 times that of the clean one, capturing the compounding 0.9 times 0.8 penalty even after two-decimal rounding. -/
theorem filler_penalty_ratio (o : TextOracle) (t1 t2 : String)
    (hc : _calculate_clarity_score o t1 = _calculate_clarity_score o t2)
    (hg : _calculate_grammar_score o t1 = _calculate_grammar_score o t2)
    (ht : _calculate_tone_score t1 = _calculate_tone_score t2)
    (h11 : (_detect_filler_words t1).2 = 11)
    (h0 : (_detect_filler_words t2).2 = 0) :
    (analyze_communication o false t1).score ≤ 0.75 * (analyze_communication o false t2).score := by
  have hb1 : pyBlank t1 = false := not_blank_of_fillers (by rw [h11]; omega)
  have hgl : 1 / 2 ≤ _calculate_grammar_score o t2 := hg ▸ grammar_score_ge_half o t1 hb1
  have htl : 1 / 2 ≤ _calculate_tone_score t2 := tone_score_ge_half t2
  have hcl : 0 ≤ _calculate_clarity_score o t2 := (clarity_score_mem o t2).1
  have hcu : _calculate_clarity_score o t2 ≤ 1 := (clarity_score_mem o t2).2
  have hgu : _calculate_grammar_score o t2 ≤ 1 := (grammar_score_mem o t2).2
  have htu : _calculate_tone_score t2 ≤ 1 := (tone_score_mem t2).2
  set b : ℚ := _calculate_clarity_score o t2 * 0.4 + _calculate_grammar_score o t2 * 0.3
    + _calculate_tone_score t2 * 0.3 with hbdef
  clear_value b
  have hb03 : 0.3 ≤ b := by rw [hbdef]; linarith
  have hb1' : b ≤ 1 := by rw [hbdef]; linarith
  have e1 : (analyze_communication o false t1).score = round2 (b * 0.9 * 0.8) := by
    show round2 (commComposite o t1) = round2 (b * 0.9 * 0.8)
    congr 1
    unfold commComposite
    dsimp only
    rw [h11, if_pos (by omega : 5 < 11), if_pos (by omega : 10 < 11), hc, hg, ht]
    rw [← hbdef]
    exact clamp01_eq_self (by nlinarith) (by nlinarith)
  have e2 : (analyze_communication o false t2).score = round2 b := by
    show round2 (commComposite o t2) = round2 b
    congr 1
    unfold commComposite
    dsimp only
    rw [h0, if_neg (by omega : ¬ 5 < 0), if_neg (by omega : ¬ 10 < 0)]
    rw [← hbdef]
    exact clamp01_eq_self (by linarith) (by linarith)
  rw [e1, e2]
  have r1 := round2_bounds (b * 0.9 * 0.8)
  have r2 := round2_bounds b
  linarith [r1.1, r1.2, r2.1, r2.2]

/-- Witness for C9 at two concrete transcripts of eleven equal words each, eleven fillers against none, under the oracle with no sentences. -/
theorem filler_penalty_ratio_witness :
    (_detect_filler_words umStr11).2 = 11 ∧ (_detect_filler_words aaStr11).2 = 0
  ∧ (analyze_communication oW9 false umStr11).score
      ≤ 0.75 * (analyze_communication oW9 false aaStr11).score := by
  have hc : _calculate_clarity_score oW9 umStr11 = _calculate_clarity_score oW9 aaStr11 := by
    rw [clarity_score_no_sentences oW9 umStr11 (by decide) rfl,
        clarity_score_no_sentences oW9 aaStr11 (by decide) rfl]
  have hg : _calculate_grammar_score oW9 umStr11 = _calculate_grammar_score oW9 aaStr11 := by
    rw [grammar_score_no_sentences oW9 umStr11 (by decide) rfl,
        grammar_score_no_sentences oW9 aaStr11 (by decide) rfl]
  have ht : _calculate_tone_score umStr11 = _calculate_tone_score aaStr11 := by
    rw [tone_score_no_hits umStr11 (by decide) (by decide) (by decide) (by decide),
        tone_score_no_hits aaStr11 (by decide) (by decide) (by decide) (by decide)]
  exact ⟨by decide, by decide,
    filler_penalty_ratio oW9 umStr11 aaStr11 hc hg ht (by decide) (by decide)⟩

/-- C10: on every non-blank transcript that tokenizes to at least one sentence the grammar score lies in the band from 0.7 to 1, so the grammar suggestion, which requires a grammar score below 0.6, is never emitted; and the upper bound 1 is attained at a concrete properly punctuated capitalized sentence. -/
theorem grammar_band_and_no_grammar_tip :
    (∀ (o : TextOracle) (t : String), pyBlank t = false → o.sentTokenize t ≠ [] →
      (0.7 ≤ _calculate_grammar_score o t ∧ _calculate_grammar_score o t ≤ 1)
      ∧ grammarTip ∉ (analyze_communication o false t).suggestions)
  ∧ _calculate_grammar_score oW helloStr = 1 := by
  constructor
  · intro o t hb hne
    have hge : 0.7 ≤ _calculate_grammar_score o t := by
      unfold _calculate_grammar_score
      rw [hb]
      simp only [Bool.false_eq_true, if_false]
      rw [if_neg hne]
      apply clamp01_ge (by norm_num)
      have h1 : (0:ℚ) ≤ ((o.sentTokenize t).countP endsProper : ℚ) / ((o.sentTokenize t).length : ℚ) := by
        positivity
      have h2 : (0:ℚ) ≤ ((o.sentTokenize t).countP startsUpper : ℚ) / ((o.sentTokenize t).length : ℚ) := by
        positivity
      linarith
    refine ⟨⟨hge, (grammar_score_mem o t).2⟩, ?_⟩
    have hng : ¬ (_calculate_grammar_score o t < 0.6) := not_lt.mpr (by linarith)
    exact grammarTip_not_emitted _ _ _ _ hng
  · have hb : pyBlank helloStr = false := by decide
    unfold _calculate_grammar_score
    rw [hb]
    simp only [Bool.false_eq_true, if_false]
    have hs : oW.sentTokenize helloStr = [helloStr] := rfl
    rw [hs]
    rw [if_neg (by simp : ¬ ([helloStr] : List String) = [])]
    have h1 : List.countP endsProper [helloStr] = 1 := by decide
    have h2 : List.countP startsUpper [helloStr] = 1 := by decide
    rw [h1, h2]
    norm_num [clamp01]

/-- Witness for C10 at the concrete oracle and sentence fixture. -/
theorem grammar_band_and_no_grammar_tip_witness :
    pyBlank helloStr = false ∧ oW.sentTokenize helloStr ≠ []
  ∧ ((0.7 ≤ _calculate_grammar_score oW helloStr ∧ _calculate_grammar_score oW helloStr ≤ 1)
     ∧ grammarTip ∉ (analyze_communication oW false helloStr).suggestions) :=
  ⟨by decide, by simp [oW],
   grammar_band_and_no_grammar_tip.1 oW helloStr (by decide) (by simp [oW])⟩

/-- The communication composite lies in the unit interval by construction of the final clamp. -/
theorem commComposite_mem (o : TextOracle) (t : String) :
    0 ≤ commComposite o t ∧ commComposite o t ≤ 1 := by
  unfold commComposite
  exact ⟨clamp01_nonneg _, clamp01_le_one _⟩

/-- All four communication score fields lie in the unit interval, on the normal path and on the fault fallback alike. -/
theorem comm_result_fields_mem (o : TextOracle) (fault : Bool) (t : String) :
    (0 ≤ (analyze_communication o fault t).score ∧ (analyze_communication o fault t).score ≤ 1)
  ∧ (0 ≤ (analyze_communication o fault t).clarity_score ∧ (analyze_communication o fault t).clarity_score ≤ 1)
  ∧ (0 ≤ (analyze_communication o fault t).grammar_score ∧ (analyze_communication o fault t).grammar_score ≤ 1)
  ∧ (0 ≤ (analyze_communication o fault t).tone_score ∧ (analyze_communication o fault t).tone_score ≤ 1) := by
  cases fault with
  | true =>
    refine ⟨⟨?_, ?_⟩, ⟨?_, ?_⟩, ⟨?_, ?_⟩, ⟨?_, ?_⟩⟩ <;> norm_num [analyze_communication, commFallback]
  | false =>
    have hsc : (analyze_communication o false t).score = round2 (commComposite o t) := rfl
    have hcl : (analyze_communication o false t).clarity_score = round2 (_calculate_clarity_score o t) := rfl
    have hgr : (analyze_communication o false t).grammar_score = round2 (_calculate_grammar_score o t) := rfl
    have hto : (analyze_communication o false t).tone_score = round2 (_calculate_tone_score t) := rfl
    refine ⟨⟨?_, ?_⟩, ⟨?_, ?_⟩, ⟨?_, ?_⟩, ⟨?_, ?_⟩⟩
    · rw [hsc]; exact round2_nonneg (commComposite_mem o t).1
    · rw [hsc]; exact round2_le_one (commComposite_mem o t).2
    · rw [hcl]; exact round2_nonneg (clarity_score_mem o t).1
    · rw [hcl]; exact round2_le_one (clarity_score_mem o t).2
    · rw [hgr]; exact round2_nonneg (grammar_score_mem o t).1
    · rw [hgr]; exact round2_le_one (grammar_score_mem o t).2
    · rw [hto]; exact round2_nonneg (tone_score_mem t).1
    · rw [hto]; exact round2_le_one (tone_score_mem t).2

/-- All four technical score fields lie in the unit interval whenever the cosine similarities are bounded by Cauchy-Schwarz, on the normal path and on the fault fallback alike. -/
theorem tech_result_fields_mem (p : TechOracle) (fault sfault : Bool) (question answer domain : String)
    (hsim : ∀ x y : String, -1 ≤ p.sim x y ∧ p.sim x y ≤ 1) :
    (0 ≤ (evaluate_response p fault sfault question answer domain).score
       ∧ (evaluate_response p fault sfault question answer domain).score ≤ 1)
  ∧ (0 ≤ (evaluate_response p fault sfault question answer domain).correctness
       ∧ (evaluate_response p fault sfault question answer domain).correctness ≤ 1)
  ∧ (0 ≤ (evaluate_response p fault sfault question answer domain).completeness
       ∧ (evaluate_response p fault sfault question answer domain).completeness ≤ 1)
  ∧ (0 ≤ (evaluate_response p fault sfault question answer domain).relevance
       ∧ (evaluate_response p fault sfault question answer domain).relevance ≤ 1) := by
  cases fault with
  | true =>
    refine ⟨⟨?_, ?_⟩, ⟨?_, ?_⟩, ⟨?_, ?_⟩, ⟨?_, ?_⟩⟩ <;> norm_num [evaluate_response, techFallback]
  | false =>
    have hsem := semantic_score_mem p sfault question answer domain hsim
    have hkw := keyword_score_mem answer domain
    have hlen := length_score_mem answer
    have hscore : (evaluate_response p false sfault question answer domain).score
        = round2 (clamp01 (_calculate_semantic_score p sfault question answer domain * 0.5
            + _calculate_keyword_score answer domain * 0.3 + _calculate_length_score answer * 0.2)) := rfl
    have hcor : (evaluate_response p false sfault question answer domain).correctness
        = round2 (_calculate_semantic_score p sfault question answer domain) := rfl
    have hcom : (evaluate_response p false sfault question answer domain).completeness
        = round2 (_calculate_length_score answer) := rfl
    have hrel : (evaluate_response p false sfault question answer domain).relevance
        = round2 (_calculate_keyword_score answer domain) := rfl
    refine ⟨⟨?_, ?_⟩, ⟨?_, ?_⟩, ⟨?_, ?_⟩, ⟨?_, ?_⟩⟩
    · rw [hscore]; exact round2_nonneg (clamp01_nonneg _)
    · rw [hscore]; exact round2_le_one (clamp01_le_one _)
    · rw [hcor]; exact round2_nonneg hsem.1
    · rw [hcor]; exact round2_le_one hsem.2
    · rw [hcom]; exact round2_nonneg hlen.1
    · rw [hcom]; exact round2_le_one hlen.2
    · rw [hrel]; exact round2_nonneg hkw.1
    · rw [hrel]; exact round2_le_one hkw.2

/-- C1: for every transcript, question, answer, domain, oracle state and fault combination, all four communication score fields and all four technical score fields lie in the closed unit interval, given only that the embedding cosine similarities respect the Cauchy-Schwarz bound. -/
theorem all_scores_in_unit_interval (o : TextOracle) (p : TechOracle) (cfault tfault sfault : Bool)
    (t question answer domain : String)
    (hsim : ∀ x y : String, -1 ≤ p.sim x y ∧ p.sim x y ≤ 1) :
    ((0 ≤ (analyze_communication o cfault t).score ∧ (analyze_communication o cfault t).score ≤ 1)
     ∧ (0 ≤ (analyze_communication o cfault t).clarity_score ∧ (analyze_communication o cfault t).clarity_score ≤ 1)
     ∧ (0 ≤ (analyze_communication o cfault t).grammar_score ∧ (analyze_communication o cfault t).grammar_score ≤ 1)
     ∧ (0 ≤ (analyze_communication o cfault t).tone_score ∧ (analyze_communication o cfault t).tone_score ≤ 1))
  ∧ ((0 ≤ (evaluate_response p tfault sfault question answer domain).score
        ∧ (evaluate_response p tfault sfault question answer domain).score ≤ 1)
     ∧ (0 ≤ (evaluate_response p tfault sfault question answer domain).correctness
        ∧ (evaluate_response p tfault sfault question answer domain).correctness ≤ 1)
     ∧ (0 ≤ (evaluate_response p tfault sfault question answer domain).completeness
        ∧ (evaluate_response p tfault sfault question answer domain).completeness ≤ 1)
     ∧ (0 ≤ (evaluate_response p tfault sfault question answer domain).relevance
        ∧ (evaluate_response p tfault sfault question answer domain).relevance ≤ 1)) :=
  ⟨comm_result_fields_mem o cfault t,
   tech_result_fields_mem p tfault sfault question answer domain hsim⟩

/-- Witness for C1 at concrete oracles, a concrete transcript and concrete question, answer and domain. -/
theorem all_scores_in_unit_interval_witness :
    (∀ x y : String, -1 ≤ oTechReady.sim x y ∧ oTechReady.sim x y ≤ 1)
  ∧ (((0 ≤ (analyze_communication oW false umTestStr).score ∧ (analyze_communication oW false umTestStr).score ≤ 1)
     ∧ (0 ≤ (analyze_communication oW false umTestStr).clarity_score ∧ (analyze_communication oW false umTestStr).clarity_score ≤ 1)
     ∧ (0 ≤ (analyze_communication oW false umTestStr).grammar_score ∧ (analyze_communication oW false umTestStr).grammar_score ≤ 1)
     ∧ (0 ≤ (analyze_communication oW false umTestStr).tone_score ∧ (analyze_communication oW false umTestStr).tone_score ≤ 1))
  ∧ ((0 ≤ (evaluate_response oTechReady false false sampleQuestion sampleAnswer domSoftware).score
        ∧ (evaluate_response oTechReady false false sampleQuestion sampleAnswer domSoftware).score ≤ 1)
     ∧ (0 ≤ (evaluate_response oTechReady false false sampleQuestion sampleAnswer domSoftware).correctness
        ∧ (evaluate_response oTechReady false false sampleQuestion sampleAnswer domSoftware).correctness ≤ 1)
     ∧ (0 ≤ (evaluate_response oTechReady false false sampleQuestion sampleAnswer domSoftware).completeness
        ∧ (evaluate_response oTechReady false false sampleQuestion sampleAnswer domSoftware).completeness ≤ 1)
     ∧ (0 ≤ (evaluate_response oTechReady false false sampleQuestion sampleAnswer domSoftware).relevance
        ∧ (evaluate_response oTechReady false false sampleQuestion sampleAnswer domSoftware).relevance ≤ 1))) := by
  have hsim : ∀ x y : String, -1 ≤ oTechReady.sim x y ∧ oTechReady.sim x y ≤ 1 := by
    intro x y
    constructor <;> norm_num [oTechReady]
  exact ⟨hsim, all_scores_in_unit_interval oW oTechReady false false false umTestStr
    sampleQuestion sampleAnswer domSoftware hsim⟩
